import Mathlib

/-!
Verification of the geotiff crate's coordinate-transform resolution and
GeoKey-directory decoding logic, as a shallow embedding in Lean.

Rust `f64` values are modelled as exact rationals (`ℚ`), `u16` values as `Nat`
(with explicit wrapping modulo 2^16 at the one place the source performs
arithmetic on `u16`), Rust `String`/`&str` as `List Char`, and fallible
functions as `Except`-style results.
-/

namespace Geotiff

/-- Model of `TiffError::FormatError(TiffFormatError::Format(msg))`, the only
error shape this crate produces. -/
inductive TiffError where
  | formatError (msg : String)
deriving DecidableEq

/-- Model of a `geo_types::Coord` with `f64` components read as rationals. -/
structure Coord where
  x : ℚ
  y : ℚ
deriving DecidableEq

deriving instance DecidableEq for Except

/-! ### coordinate_transform.rs -/

def pixelScaleLenMsg : String :=
  "Number values in ModelPixelScaleTag must be equal to 3"

def tiePointsEmptyMsg : String :=
  "Number of values in ModelTiePointTag must be greater than 0"

def tiePointsDivMsg : String :=
  "Number of values in ModelTiePointTag must be divisible by 6"

def matrixLenMsg : String :=
  "Number of values in ModelTransformationTag must be equal to 16"

def pixelScaleConflictMsg : String :=
  "ModelPixelScaleTag must not be specified when ModelTransformationTag is present"

def tiePointConflictMsg : String :=
  "ModelTiePointTag must not be specified when ModelTransformationTag is present"

def tiePointMissingMsg : String :=
  "ModelTiePointTag must be present when ModelTransformationTag is missing"

def pixelScaleMissingMsg : String :=
  "ModelPixelScaleTag must be specified when ModelTiePointTag contains 6 values"

def tiePointsNotSupportedMsg : String :=
  "Transformation by tie points is not supported"

def invertibleMsg : String :=
  "Provided transformation matrix is not invertible"

/-- The source's literal `0.000000000000001` in the determinant check. -/
def invertibilityEpsilon : ℚ := 1 / 10 ^ 15

/-- Model of `f64::abs`, kept executable so concrete runs reduce. -/
def ratAbs (q : ℚ) : ℚ := if q < 0 then -q else q

/-- Model of `AffineTransform { transform: [f64; 6], inverse_transform: [f64; 6] }`. -/
structure AffineTransform where
  transform : List ℚ
  inverse_transform : List ℚ
deriving DecidableEq

/-- Model of `AffineTransform::from_tag_matrix`.  The `[f64; 16]` argument is a
16-element list; elements are read at the row-major positions the source
indexes. -/
def AffineTransform.from_tag_matrix (matrix : List ℚ) :
    Except TiffError AffineTransform :=
  let t : List ℚ :=
    [matrix.getD 0 0, matrix.getD 1 0, matrix.getD 3 0,
     matrix.getD 4 0, matrix.getD 5 0, matrix.getD 7 0]
  let det : ℚ := t.getD 0 0 * t.getD 4 0 - t.getD 1 0 * t.getD 3 0
  if ratAbs det < invertibilityEpsilon then
    .error (.formatError invertibleMsg)
  else
    .ok { transform := t,
          inverse_transform :=
            [t.getD 4 0 / det,
             -t.getD 1 0 / det,
             (t.getD 1 0 * t.getD 5 0 - t.getD 2 0 * t.getD 4 0) / det,
             -t.getD 3 0 / det,
             t.getD 0 0 / det,
             (-(t.getD 0 0) * t.getD 5 0 + t.getD 2 0 * t.getD 3 0) / det] }

/-- Model of the private `AffineTransform::transform` helper (renamed because
the structure field already uses that name). -/
def AffineTransform.applyMatrix (matrix : List ℚ) (coord : Coord) : Coord :=
  { x := coord.x * matrix.getD 0 0 + coord.y * matrix.getD 1 0 + matrix.getD 2 0,
    y := coord.x * matrix.getD 3 0 + coord.y * matrix.getD 4 0 + matrix.getD 5 0 }

def AffineTransform.to_model (t : AffineTransform) (coord : Coord) : Coord :=
  AffineTransform.applyMatrix t.transform coord

def AffineTransform.to_raster (t : AffineTransform) (coord : Coord) : Coord :=
  AffineTransform.applyMatrix t.inverse_transform coord

/-- Model of `TiePointAndPixelScale`. -/
structure TiePointAndPixelScale where
  raster_point : Coord
  model_point : Coord
  pixel_scale : Coord
deriving DecidableEq

/-- Model of `TiePointAndPixelScale::from_tag_data`. -/
def TiePointAndPixelScale.from_tag_data (tie_points pixel_scale : List ℚ) :
    TiePointAndPixelScale :=
  { raster_point := { x := tie_points.getD 0 0, y := tie_points.getD 1 0 },
    model_point := { x := tie_points.getD 3 0, y := tie_points.getD 4 0 },
    pixel_scale := { x := pixel_scale.getD 0 0, y := pixel_scale.getD 1 0 } }

def TiePointAndPixelScale.to_model (t : TiePointAndPixelScale) (coord : Coord) :
    Coord :=
  { x := (coord.x - t.raster_point.x) * t.pixel_scale.x + t.model_point.x,
    y := (coord.y - t.raster_point.y) * -t.pixel_scale.y + t.model_point.y }

def TiePointAndPixelScale.to_raster (t : TiePointAndPixelScale) (coord : Coord) :
    Coord :=
  { x := (coord.x - t.model_point.x) / t.pixel_scale.x + t.raster_point.x,
    y := (coord.y - t.model_point.y) / -t.pixel_scale.y + t.raster_point.y }

/-- Modelled from the spec: the feature-gated `tie_points` module, whose source
file is not part of the repository snapshot.  The spec describes the
`TiePoints` variant as "an opaque variant representing general N-point
correspondence", so it is modelled as holding the raw tie-point values. -/
structure TiePoints where
  points : List ℚ
deriving DecidableEq

/-- Modelled from the spec: `TiePoints::from_tie_points`, the constructor the
feature-gated branch of `CoordinateTransform::from_tag_data` calls. -/
def TiePoints.from_tie_points (tie_points : List ℚ) : TiePoints :=
  { points := tie_points }

/-- Model of the `CoordinateTransform` enum.  The `TiePoints` variant is
feature-gated in the source (`tie-points` cargo feature); here it is always a
constructor and the feature flag is a parameter of `from_tag_data`. -/
inductive CoordinateTransform where
  | affineTransform (t : AffineTransform)
  | tiePointAndPixelScale (t : TiePointAndPixelScale)
  | tiePoints (t : TiePoints)
deriving DecidableEq

/-- Validation of `pixel_scale_data` (`<[f64; 3]>::try_from`). -/
def checkPixelScale : Option (List ℚ) → Except TiffError (Option (List ℚ))
  | none => .ok none
  | some data =>
      if data.length = 3 then .ok (some data)
      else .error (.formatError pixelScaleLenMsg)

/-- Validation of `model_tie_points_data` (nonzero length, divisible by 6). -/
def checkTiePoints : Option (List ℚ) → Except TiffError (Option (List ℚ))
  | none => .ok none
  | some data =>
      if data.length = 0 then .error (.formatError tiePointsEmptyMsg)
      else if data.length % 6 ≠ 0 then .error (.formatError tiePointsDivMsg)
      else .ok (some data)

/-- Validation of `model_transformation_data` (`<[f64; 16]>::try_from`). -/
def checkTransformationMatrix : Option (List ℚ) → Except TiffError (Option (List ℚ))
  | none => .ok none
  | some data =>
      if data.length = 16 then .ok (some data)
      else .error (.formatError matrixLenMsg)

/-- Model of `CoordinateTransform::from_tag_data`.  `featureTiePoints` models
the `tie-points` cargo feature: `true` compiles in the `TiePoints` branch,
`false` the "not supported" error branch. -/
def CoordinateTransform.from_tag_data (featureTiePoints : Bool)
    (pixel_scale_data model_tie_points_data model_transformation_data :
      Option (List ℚ)) : Except TiffError CoordinateTransform :=
  match checkPixelScale pixel_scale_data with
  | .error e => .error e
  | .ok pixel_scale =>
    match checkTiePoints model_tie_points_data with
    | .error e => .error e
    | .ok tie_points =>
      match checkTransformationMatrix model_transformation_data with
      | .error e => .error e
      | .ok transformation_matrix =>
        match transformation_matrix with
        | some m =>
            if pixel_scale.isSome then
              .error (.formatError pixelScaleConflictMsg)
            else if tie_points.isSome then
              .error (.formatError tiePointConflictMsg)
            else
              match AffineTransform.from_tag_matrix m with
              | .error e => .error e
              | .ok t => .ok (.affineTransform t)
        | none =>
            match tie_points with
            | none => .error (.formatError tiePointMissingMsg)
            | some tp =>
                if tp.length = 6 then
                  match pixel_scale with
                  | none => .error (.formatError pixelScaleMissingMsg)
                  | some ps =>
                      .ok (.tiePointAndPixelScale
                        (TiePointAndPixelScale.from_tag_data tp ps))
                else
                  if featureTiePoints then
                    .ok (.tiePoints (TiePoints.from_tie_points tp))
                  else
                    .error (.formatError tiePointsNotSupportedMsg)

/-! ### geo_key_directory.rs -/

/-- Modelled from the spec: the external tiff crate's `Tag` enumeration and its
`Tag::from_u16` lookup are not part of this repository.  Per the spec,
`locationTag == 0` means the value is an inline SHORT and a nonzero
locationTag names an auxiliary array, so the model decodes `0` to `none` and
any nonzero value to `some` tag, distinguishing the two auxiliary-array tags
the source compares against (`GeoDoubleParamsTag` = 34736,
`GeoAsciiParamsTag` = 34737). -/
inductive Tag where
  | GeoKeyDirectoryTag
  | GeoDoubleParamsTag
  | GeoAsciiParamsTag
  | other (v : Nat)
deriving DecidableEq

/-- Modelled from the spec: `tiff::tags::Tag::from_u16` under the spec's
locationTag convention. -/
def Tag.from_u16 (v : Nat) : Option Tag :=
  if v = 0 then none
  else if v = 34735 then some .GeoKeyDirectoryTag
  else if v = 34736 then some .GeoDoubleParamsTag
  else if v = 34737 then some .GeoAsciiParamsTag
  else some (.other v)

/-- Model of the `GeoKeyDirectoryTag` enum (the ~45 known GeoKey ids). -/
inductive GeoKeyDirectoryTag where
  | ModelType
  | RasterType
  | Citation
  | GeographicType
  | GeogCitation
  | GeogGeodeticDatum
  | GeogPrimeMeridian
  | GeogLinearUnits
  | GeogLinearUnitSize
  | GeogAngularUnits
  | GeogAngularUnitSize
  | GeogEllipsoid
  | GeogSemiMajorAxis
  | GeogSemiMinorAxis
  | GeogInvFlattening
  | GeogAzimuthUnits
  | GeogPrimeMeridianLong
  | ProjectedType
  | ProjCitation
  | Projection
  | ProjCoordTrans
  | ProjLinearUnits
  | ProjLinearUnitSize
  | ProjStdParallel1
  | ProjStdParallel2
  | ProjNatOriginLong
  | ProjNatOriginLat
  | ProjFalseEasting
  | ProjFalseNorthing
  | ProjFalseOriginLong
  | ProjFalseOriginLat
  | ProjFalseOriginEasting
  | ProjFalseOriginNorthing
  | ProjCenterLong
  | ProjCenterLat
  | ProjCenterEasting
  | ProjCenterNorthing
  | ProjScaleAtNatOrigin
  | ProjScaleAtCenter
  | ProjAzimuthAngle
  | ProjStraightVertPoleLong
  | Vertical
  | VerticalCitation
  | VerticalDatum
  | VerticalUnits
deriving DecidableEq

/-- Model of `num_enum`'s `TryFromPrimitive` for `GeoKeyDirectoryTag` (the
`#[repr(u16)]` discriminants from the source). -/
def GeoKeyDirectoryTag.try_from : Nat → Option GeoKeyDirectoryTag
  | 1024 => some .ModelType
  | 1025 => some .RasterType
  | 1026 => some .Citation
  | 2048 => some .GeographicType
  | 2049 => some .GeogCitation
  | 2050 => some .GeogGeodeticDatum
  | 2051 => some .GeogPrimeMeridian
  | 2052 => some .GeogLinearUnits
  | 2053 => some .GeogLinearUnitSize
  | 2054 => some .GeogAngularUnits
  | 2055 => some .GeogAngularUnitSize
  | 2056 => some .GeogEllipsoid
  | 2057 => some .GeogSemiMajorAxis
  | 2058 => some .GeogSemiMinorAxis
  | 2059 => some .GeogInvFlattening
  | 2060 => some .GeogAzimuthUnits
  | 2061 => some .GeogPrimeMeridianLong
  | 3072 => some .ProjectedType
  | 3073 => some .ProjCitation
  | 3074 => some .Projection
  | 3075 => some .ProjCoordTrans
  | 3076 => some .ProjLinearUnits
  | 3077 => some .ProjLinearUnitSize
  | 3078 => some .ProjStdParallel1
  | 3079 => some .ProjStdParallel2
  | 3080 => some .ProjNatOriginLong
  | 3081 => some .ProjNatOriginLat
  | 3082 => some .ProjFalseEasting
  | 3083 => some .ProjFalseNorthing
  | 3084 => some .ProjFalseOriginLong
  | 3085 => some .ProjFalseOriginLat
  | 3086 => some .ProjFalseOriginEasting
  | 3087 => some .ProjFalseOriginNorthing
  | 3088 => some .ProjCenterLong
  | 3089 => some .ProjCenterLat
  | 3090 => some .ProjCenterEasting
  | 3091 => some .ProjCenterNorthing
  | 3092 => some .ProjScaleAtNatOrigin
  | 3093 => some .ProjScaleAtCenter
  | 3094 => some .ProjAzimuthAngle
  | 3095 => some .ProjStraightVertPoleLong
  | 4096 => some .Vertical
  | 4097 => some .VerticalCitation
  | 4098 => some .VerticalDatum
  | 4099 => some .VerticalUnits
  | _ => none

/-- The Rust `{:?}` (Debug) rendering of a `GeoKeyDirectoryTag`, used inside
error messages. -/
def GeoKeyDirectoryTag.debugName : GeoKeyDirectoryTag → String
  | .ModelType => "ModelType"
  | .RasterType => "RasterType"
  | .Citation => "Citation"
  | .GeographicType => "GeographicType"
  | .GeogCitation => "GeogCitation"
  | .GeogGeodeticDatum => "GeogGeodeticDatum"
  | .GeogPrimeMeridian => "GeogPrimeMeridian"
  | .GeogLinearUnits => "GeogLinearUnits"
  | .GeogLinearUnitSize => "GeogLinearUnitSize"
  | .GeogAngularUnits => "GeogAngularUnits"
  | .GeogAngularUnitSize => "GeogAngularUnitSize"
  | .GeogEllipsoid => "GeogEllipsoid"
  | .GeogSemiMajorAxis => "GeogSemiMajorAxis"
  | .GeogSemiMinorAxis => "GeogSemiMinorAxis"
  | .GeogInvFlattening => "GeogInvFlattening"
  | .GeogAzimuthUnits => "GeogAzimuthUnits"
  | .GeogPrimeMeridianLong => "GeogPrimeMeridianLong"
  | .ProjectedType => "ProjectedType"
  | .ProjCitation => "ProjCitation"
  | .Projection => "Projection"
  | .ProjCoordTrans => "ProjCoordTrans"
  | .ProjLinearUnits => "ProjLinearUnits"
  | .ProjLinearUnitSize => "ProjLinearUnitSize"
  | .ProjStdParallel1 => "ProjStdParallel1"
  | .ProjStdParallel2 => "ProjStdParallel2"
  | .ProjNatOriginLong => "ProjNatOriginLong"
  | .ProjNatOriginLat => "ProjNatOriginLat"
  | .ProjFalseEasting => "ProjFalseEasting"
  | .ProjFalseNorthing => "ProjFalseNorthing"
  | .ProjFalseOriginLong => "ProjFalseOriginLong"
  | .ProjFalseOriginLat => "ProjFalseOriginLat"
  | .ProjFalseOriginEasting => "ProjFalseOriginEasting"
  | .ProjFalseOriginNorthing => "ProjFalseOriginNorthing"
  | .ProjCenterLong => "ProjCenterLong"
  | .ProjCenterLat => "ProjCenterLat"
  | .ProjCenterEasting => "ProjCenterEasting"
  | .ProjCenterNorthing => "ProjCenterNorthing"
  | .ProjScaleAtNatOrigin => "ProjScaleAtNatOrigin"
  | .ProjScaleAtCenter => "ProjScaleAtCenter"
  | .ProjAzimuthAngle => "ProjAzimuthAngle"
  | .ProjStraightVertPoleLong => "ProjStraightVertPoleLong"
  | .Vertical => "Vertical"
  | .VerticalCitation => "VerticalCitation"
  | .VerticalDatum => "VerticalDatum"
  | .VerticalUnits => "VerticalUnits"

/-- Model of the `RasterType` enum. -/
inductive RasterType where
  | Undefined
  | RasterPixelIsArea
  | RasterPixelIsPoint
  | UserDefined
deriving DecidableEq

/-- Model of `TryFromPrimitive` for `RasterType`. -/
def RasterType.try_from : Nat → Option RasterType
  | 0 => some .Undefined
  | 1 => some .RasterPixelIsArea
  | 2 => some .RasterPixelIsPoint
  | 32767 => some .UserDefined
  | _ => none

/-- Model of the `GeoKeyDirectory` record: `u16` fields as `Nat`, `f64` fields
as `ℚ`, `String` fields as `List Char`. -/
structure GeoKeyDirectory where
  key_directory_version : Nat
  key_revision : Nat
  minor_revision : Nat
  model_type : Option Nat
  raster_type : Option RasterType
  citation : Option (List Char)
  geographic_type : Option Nat
  geog_citation : Option (List Char)
  geog_geodetic_datum : Option Nat
  geog_prime_meridian : Option Nat
  geog_linear_units : Option Nat
  geog_linear_unit_size : Option ℚ
  geog_angular_units : Option Nat
  geog_angular_unit_size : Option ℚ
  geog_ellipsoid : Option Nat
  geog_semi_major_axis : Option ℚ
  geog_semi_minor_axis : Option ℚ
  geog_inv_flattening : Option ℚ
  geog_azimuth_units : Option Nat
  geog_prime_meridian_long : Option ℚ
  projected_type : Option Nat
  proj_citation : Option (List Char)
  projection : Option Nat
  proj_coord_trans : Option Nat
  proj_linear_units : Option Nat
  proj_linear_unit_size : Option ℚ
  proj_std_parallel1 : Option ℚ
  proj_std_parallel2 : Option ℚ
  proj_nat_origin_long : Option ℚ
  proj_nat_origin_lat : Option ℚ
  proj_false_easting : Option ℚ
  proj_false_northing : Option ℚ
  proj_false_origin_long : Option ℚ
  proj_false_origin_lat : Option ℚ
  proj_false_origin_easting : Option ℚ
  proj_false_origin_northing : Option ℚ
  proj_center_long : Option ℚ
  proj_center_lat : Option ℚ
  proj_center_easting : Option ℚ
  proj_center_northing : Option ℚ
  proj_scale_at_nat_origin : Option ℚ
  proj_scale_at_center : Option ℚ
  proj_azimuth_angle : Option ℚ
  proj_straight_vert_pole_long : Option ℚ
  vertical : Option Nat
  vertical_citation : Option (List Char)
  vertical_datum : Option Nat
  vertical_units : Option Nat
deriving DecidableEq

/-- Model of `impl Default for GeoKeyDirectory`: header 1/1/1, every optional
field absent. -/
def GeoKeyDirectory.default : GeoKeyDirectory :=
  { key_directory_version := 1
    key_revision := 1
    minor_revision := 1
    model_type := none
    raster_type := none
    citation := none
    geographic_type := none
    geog_citation := none
    geog_geodetic_datum := none
    geog_prime_meridian := none
    geog_linear_units := none
    geog_linear_unit_size := none
    geog_angular_units := none
    geog_angular_unit_size := none
    geog_ellipsoid := none
    geog_semi_major_axis := none
    geog_semi_minor_axis := none
    geog_inv_flattening := none
    geog_azimuth_units := none
    geog_prime_meridian_long := none
    projected_type := none
    proj_citation := none
    projection := none
    proj_coord_trans := none
    proj_linear_units := none
    proj_linear_unit_size := none
    proj_std_parallel1 := none
    proj_std_parallel2 := none
    proj_nat_origin_long := none
    proj_nat_origin_lat := none
    proj_false_easting := none
    proj_false_northing := none
    proj_false_origin_long := none
    proj_false_origin_lat := none
    proj_false_origin_easting := none
    proj_false_origin_northing := none
    proj_center_long := none
    proj_center_lat := none
    proj_center_easting := none
    proj_center_northing := none
    proj_scale_at_nat_origin := none
    proj_scale_at_center := none
    proj_azimuth_angle := none
    proj_straight_vert_pole_long := none
    vertical := none
    vertical_citation := none
    vertical_datum := none
    vertical_units := none }

/-- A computation outcome which, besides the source's `TiffResult`, records a
Rust panic (`DirectoryEntry::string` can panic on a reversed slice range). -/
inductive ROutcome (α : Type) where
  | ok (a : α)
  | err (e : TiffError)
  | panicked
deriving DecidableEq

def unknownKeyMsg (k : Nat) : String :=
  "Unknown GeoKeyDirectoryTag: " ++ toString k

def shortTypeErrMsg (t : GeoKeyDirectoryTag) : String :=
  "Key `" ++ t.debugName ++ "` did not have the expected SHORT value type."

def countErrMsg (c : Nat) : String :=
  "Unexpected count: expected 1, got " ++ toString c ++ "."

def doubleTypeErrMsg (t : GeoKeyDirectoryTag) : String :=
  "Key `" ++ t.debugName ++ "` did not have the expected DOUBLE value type."

def doubleOffsetErrMsg (len off : Nat) : String :=
  "Offset out of bounds: the length is " ++ toString len ++
    " but the offset is " ++ toString off

def asciiTypeErrMsg (t : GeoKeyDirectoryTag) : String :=
  "Key `" ++ t.debugName ++ "` did not have the expected ASCII value type."

def startOffsetErrMsg (len off : Nat) : String :=
  "Start offset out of bounds: the length is " ++ toString len ++
    " but the offset is " ++ toString off ++ "."

def endOffsetErrMsg (len off : Nat) : String :=
  "End offset out of bounds: the length is " ++ toString len ++
    " but the offset is " ++ toString off ++ "."

def unknownRasterTypeMsg (v : Nat) : String :=
  "Unknown raster type: " ++ toString v

def dirTooShortMsg : String :=
  "Unexpected length of directory data: must be at least 4."

def dirCountMismatchMsg : String :=
  "Unexpected length of directory data: number of keys does not match length of directory data."

/-- Model of `DirectoryEntry`. -/
structure DirectoryEntry where
  key_tag : GeoKeyDirectoryTag
  location_tag : Option Tag
  count : Nat
  value_or_offset : Nat

/-- Model of `DirectoryEntry::short`. -/
def DirectoryEntry.short (e : DirectoryEntry) : Except TiffError Nat :=
  if e.location_tag.isSome then
    .error (.formatError (shortTypeErrMsg e.key_tag))
  else if e.count ≠ 1 then
    .error (.formatError (countErrMsg e.count))
  else
    .ok e.value_or_offset

/-- Model of `DirectoryEntry::double`. -/
def DirectoryEntry.double (e : DirectoryEntry) (data : List ℚ) :
    Except TiffError ℚ :=
  if e.location_tag ≠ some .GeoDoubleParamsTag then
    .error (.formatError (doubleTypeErrMsg e.key_tag))
  else if e.count ≠ 1 then
    .error (.formatError (countErrMsg e.count))
  else
    match data.get? e.value_or_offset with
    | none => .error (.formatError (doubleOffsetErrMsg data.length e.value_or_offset))
    | some value => .ok value

/-- Model of `DirectoryEntry::string`.  The source computes the end bound
`(self.value_or_offset + self.count - 1) as usize` in `u16` arithmetic; with
the release-profile wrapping semantics this is `(v + c + 2^16 - 1) % 2^16`.
The subsequent `&data[start..end]` slice panics when `start > end`, which the
model records as `.panicked`. -/
def DirectoryEntry.string (e : DirectoryEntry) (data : List Char) :
    ROutcome (List Char) :=
  if e.location_tag ≠ some .GeoAsciiParamsTag then
    .err (.formatError (asciiTypeErrMsg e.key_tag))
  else
    let start := e.value_or_offset
    if start ≥ data.length then
      .err (.formatError (startOffsetErrMsg data.length e.value_or_offset))
    else
      let endIdx := (e.value_or_offset + e.count + 65535) % 65536
      if endIdx ≥ data.length then
        .err (.formatError (endOffsetErrMsg data.length e.value_or_offset))
      else if start ≤ endIdx then
        .ok ((data.take endIdx).drop start)
      else
        .panicked

/-- Lift `entry.short()?` followed by a field assignment. -/
def withShort (e : DirectoryEntry) (k : Nat → GeoKeyDirectory) :
    ROutcome GeoKeyDirectory :=
  match e.short with
  | .ok v => .ok (k v)
  | .error er => .err er

/-- Lift `entry.double(double_params)?` followed by a field assignment. -/
def withDouble (e : DirectoryEntry) (data : List ℚ) (k : ℚ → GeoKeyDirectory) :
    ROutcome GeoKeyDirectory :=
  match e.double data with
  | .ok v => .ok (k v)
  | .error er => .err er

/-- Lift `entry.string(ascii_params)?` followed by a field assignment. -/
def withString (e : DirectoryEntry) (data : List Char)
    (k : List Char → GeoKeyDirectory) : ROutcome GeoKeyDirectory :=
  match e.string data with
  | .ok s => .ok (k s)
  | .err er => .err er
  | .panicked => .panicked

/-- One iteration of the `match entry.key_tag` dispatch in
`GeoKeyDirectory::from_tag_data`. -/
def applyEntry (e : DirectoryEntry) (double_params : List ℚ)
    (ascii_params : List Char) (d : GeoKeyDirectory) : ROutcome GeoKeyDirectory :=
  match e.key_tag with
  | .ModelType => withShort e fun v => { d with model_type := some v }
  | .RasterType =>
      match e.short with
      | .error er => .err er
      | .ok v =>
          match RasterType.try_from v with
          | none => .err (.formatError (unknownRasterTypeMsg v))
          | some rt => .ok { d with raster_type := some rt }
  | .Citation => withString e ascii_params fun s => { d with citation := some s }
  | .GeographicType => withShort e fun v => { d with geographic_type := some v }
  | .GeogCitation =>
      withString e ascii_params fun s => { d with geog_citation := some s }
  | .GeogGeodeticDatum =>
      withShort e fun v => { d with geog_geodetic_datum := some v }
  | .GeogPrimeMeridian =>
      withShort e fun v => { d with geog_prime_meridian := some v }
  | .GeogLinearUnits => withShort e fun v => { d with geog_linear_units := some v }
  | .GeogLinearUnitSize =>
      withDouble e double_params fun v => { d with geog_linear_unit_size := some v }
  | .GeogAngularUnits =>
      withShort e fun v => { d with geog_angular_units := some v }
  | .GeogAngularUnitSize =>
      withDouble e double_params fun v => { d with geog_angular_unit_size := some v }
  | .GeogEllipsoid => withShort e fun v => { d with geog_ellipsoid := some v }
  | .GeogSemiMajorAxis =>
      withDouble e double_params fun v => { d with geog_semi_major_axis := some v }
  | .GeogSemiMinorAxis =>
      withDouble e double_params fun v => { d with geog_semi_minor_axis := some v }
  | .GeogInvFlattening =>
      withDouble e double_params fun v => { d with geog_inv_flattening := some v }
  | .GeogAzimuthUnits =>
      withShort e fun v => { d with geog_azimuth_units := some v }
  | .GeogPrimeMeridianLong =>
      withDouble e double_params fun v => { d with geog_prime_meridian_long := some v }
  | .ProjectedType => withShort e fun v => { d with projected_type := some v }
  | .ProjCitation =>
      withString e ascii_params fun s => { d with proj_citation := some s }
  | .Projection => withShort e fun v => { d with projection := some v }
  | .ProjCoordTrans => withShort e fun v => { d with proj_coord_trans := some v }
  | .ProjLinearUnits => withShort e fun v => { d with proj_linear_units := some v }
  | .ProjLinearUnitSize =>
      withDouble e double_params fun v => { d with proj_linear_unit_size := some v }
  | .ProjStdParallel1 =>
      withDouble e double_params fun v => { d with proj_std_parallel1 := some v }
  | .ProjStdParallel2 =>
      withDouble e double_params fun v => { d with proj_std_parallel2 := some v }
  | .ProjNatOriginLong =>
      withDouble e double_params fun v => { d with proj_nat_origin_long := some v }
  | .ProjNatOriginLat =>
      withDouble e double_params fun v => { d with proj_nat_origin_lat := some v }
  | .ProjFalseEasting =>
      withDouble e double_params fun v => { d with proj_false_easting := some v }
  | .ProjFalseNorthing =>
      withDouble e double_params fun v => { d with proj_false_northing := some v }
  | .ProjFalseOriginLong =>
      withDouble e double_params fun v => { d with proj_false_origin_long := some v }
  | .ProjFalseOriginLat =>
      withDouble e double_params fun v => { d with proj_false_origin_lat := some v }
  | .ProjFalseOriginEasting =>
      withDouble e double_params fun v => { d with proj_false_origin_easting := some v }
  | .ProjFalseOriginNorthing =>
      withDouble e double_params fun v => { d with proj_false_origin_northing := some v }
  | .ProjCenterLong =>
      withDouble e double_params fun v => { d with proj_center_long := some v }
  | .ProjCenterLat =>
      withDouble e double_params fun v => { d with proj_center_lat := some v }
  | .ProjCenterEasting =>
      withDouble e double_params fun v => { d with proj_center_easting := some v }
  | .ProjCenterNorthing =>
      withDouble e double_params fun v => { d with proj_center_northing := some v }
  | .ProjScaleAtNatOrigin =>
      withDouble e double_params fun v => { d with proj_scale_at_nat_origin := some v }
  | .ProjScaleAtCenter =>
      withDouble e double_params fun v => { d with proj_scale_at_center := some v }
  | .ProjAzimuthAngle =>
      withDouble e double_params fun v => { d with proj_azimuth_angle := some v }
  | .ProjStraightVertPoleLong =>
      withDouble e double_params fun v =>
        { d with proj_straight_vert_pole_long := some v }
  | .Vertical => withShort e fun v => { d with vertical := some v }
  | .VerticalCitation =>
      withString e ascii_params fun s => { d with vertical_citation := some s }
  | .VerticalDatum => withShort e fun v => { d with vertical_datum := some v }
  | .VerticalUnits => withShort e fun v => { d with vertical_units := some v }

/-- The `for entry in directory_data[4..].chunks_exact(4)` loop: groups of four
values are decoded and dispatched; an incomplete trailing group is ignored by
`chunks_exact` (the caller has already excluded it). -/
def decodeEntries (double_params : List ℚ) (ascii_params : List Char) :
    List Nat → GeoKeyDirectory → ROutcome GeoKeyDirectory
  | k :: l :: c :: v :: rest, d =>
      match GeoKeyDirectoryTag.try_from k with
      | none => .err (.formatError (unknownKeyMsg k))
      | some key_tag =>
          match applyEntry
              { key_tag := key_tag, location_tag := Tag.from_u16 l,
                count := c, value_or_offset := v }
              double_params ascii_params d with
          | .ok d' => decodeEntries double_params ascii_params rest d'
          | .err er => .err er
          | .panicked => .panicked
  | _, d => .ok d

/-- Model of `GeoKeyDirectory::from_tag_data`. -/
def GeoKeyDirectory.from_tag_data (directory_data : List Nat)
    (double_params : List ℚ) (ascii_params : List Char) :
    ROutcome GeoKeyDirectory :=
  if directory_data.length < 4 then
    .err (.formatError dirTooShortMsg)
  else
    let d : GeoKeyDirectory :=
      { GeoKeyDirectory.default with
        key_directory_version := directory_data.getD 0 0
        key_revision := directory_data.getD 1 0
        minor_revision := directory_data.getD 2 0 }
    let number_of_keys := directory_data.getD 3 0
    if directory_data.length - 4 ≠ 4 * number_of_keys then
      .err (.formatError dirCountMismatchMsg)
    else
      decodeEntries double_params ascii_params (directory_data.drop 4) d

/-- The six forward affine coefficients `from_tag_matrix` extracts: row-major
positions 0, 1, 3, 4, 5, 7 of the 16-value matrix. -/
def tagMatrixForward (m : List ℚ) : List ℚ :=
  [m.getD 0 0, m.getD 1 0, m.getD 3 0, m.getD 4 0, m.getD 5 0, m.getD 7 0]

/-- The six inverse affine coefficients `from_tag_matrix` computes. -/
def tagMatrixInverse (m : List ℚ) : List ℚ :=
  [m.getD 5 0 / (m.getD 0 0 * m.getD 5 0 - m.getD 1 0 * m.getD 4 0),
   -m.getD 1 0 / (m.getD 0 0 * m.getD 5 0 - m.getD 1 0 * m.getD 4 0),
   (m.getD 1 0 * m.getD 7 0 - m.getD 3 0 * m.getD 5 0) /
     (m.getD 0 0 * m.getD 5 0 - m.getD 1 0 * m.getD 4 0),
   -m.getD 4 0 / (m.getD 0 0 * m.getD 5 0 - m.getD 1 0 * m.getD 4 0),
   m.getD 0 0 / (m.getD 0 0 * m.getD 5 0 - m.getD 1 0 * m.getD 4 0),
   (-(m.getD 0 0) * m.getD 7 0 + m.getD 3 0 * m.getD 4 0) /
     (m.getD 0 0 * m.getD 5 0 - m.getD 1 0 * m.getD 4 0)]

/-- `segStartsAt needle hay` holds when `needle` is an initial segment of
`hay`; used to formalise an error message "naming" a key. -/
def segStartsAt : List Char → List Char → Bool
  | [], _ => true
  | _ :: _, [] => false
  | a :: as, b :: bs => a == b && segStartsAt as bs

/-- `containsSeg needle hay` holds when `needle` occurs contiguously inside
`hay`. -/
def containsSeg (needle : List Char) : List Char → Bool
  | [] => segStartsAt needle []
  | b :: bs => segStartsAt needle (b :: bs) || containsSeg needle bs

/-- The result is some `TiffError::FormatError` (the only error kind the crate
produces). -/
def isFormatErr {α : Type} (r : Except TiffError α) : Prop :=
  ∃ msg, r = .error (.formatError msg)

/-- The determinant of the 2×2 linear part of the affine coefficients that
`AffineTransform::from_tag_matrix` extracts from a 16-value matrix:
`a0*a4 - a1*a3` with `a = [m0, m1, m3, m4, m5, m7]`. -/
def tagMatrixDet (m : List ℚ) : ℚ :=
  m.getD 0 0 * m.getD 5 0 - m.getD 1 0 * m.getD 4 0

theorem ratAbs_eq_abs (q : ℚ) : ratAbs q = |q| := by
  unfold ratAbs
  split
  · exact (abs_of_neg (by assumption)).symm
  · exact (abs_of_nonneg (not_lt.mp (by assumption))).symm

theorem isFormatErr_iff_not_ok {α : Type} (r : Except TiffError α) :
    isFormatErr r ↔ ∀ t, r ≠ .ok t := by
  cases r with
  | error e => cases e with
    | formatError msg => simp [isFormatErr]
  | ok t => simp [isFormatErr]

theorem checkPixelScale_of_len (pl : List ℚ) (h : pl.length = 3) :
    checkPixelScale (some pl) = .ok (some pl) := by
  simp [checkPixelScale, h]

theorem checkPixelScale_of_ne (pl : List ℚ) (h : pl.length ≠ 3) :
    checkPixelScale (some pl) = .error (.formatError pixelScaleLenMsg) := by
  simp [checkPixelScale, h]

theorem checkTiePoints_of_valid (tl : List ℚ) (h0 : tl.length ≠ 0)
    (h6 : tl.length % 6 = 0) : checkTiePoints (some tl) = .ok (some tl) := by
  simp [checkTiePoints, h0, h6]

theorem checkTiePoints_of_zero (tl : List ℚ) (h : tl.length = 0) :
    checkTiePoints (some tl) = .error (.formatError tiePointsEmptyMsg) := by
  simp [checkTiePoints, h]

theorem checkTiePoints_of_mod (tl : List ℚ) (h6 : tl.length % 6 ≠ 0) :
    checkTiePoints (some tl) = .error (.formatError tiePointsDivMsg) := by
  have h0 : tl.length ≠ 0 := by
    intro h
    simp [h] at h6
  simp [checkTiePoints, h0, h6]

theorem checkTransformationMatrix_of_len (ml : List ℚ) (h : ml.length = 16) :
    checkTransformationMatrix (some ml) = .ok (some ml) := by
  simp [checkTransformationMatrix, h]

theorem checkTransformationMatrix_of_ne (ml : List ℚ) (h : ml.length ≠ 16) :
    checkTransformationMatrix (some ml) = .error (.formatError matrixLenMsg) := by
  simp [checkTransformationMatrix, h]

/-- C1: when the transformation matrix is present (16 values) together with a
pixel scale or tie points that each pass their own length validation,
`CoordinateTransform::from_tag_data` returns a FormatError (the mutual
exclusion error) and never constructs a transform, regardless of the matrix
contents. -/
theorem C1_matrix_mutual_exclusion (b : Bool) (ps tp : Option (List ℚ))
    (m : List ℚ) (hm : m.length = 16)
    (hps : ∀ l, ps = some l → l.length = 3)
    (htp : ∀ l, tp = some l → l.length ≠ 0 ∧ l.length % 6 = 0)
    (hpresent : ps.isSome ∨ tp.isSome) :
    CoordinateTransform.from_tag_data b ps tp (some m) =
      .error (.formatError
        (if ps.isSome then pixelScaleConflictMsg else tiePointConflictMsg)) := by
  rcases ps with _ | pl <;> rcases tp with _ | tl
  · simp at hpresent
  · obtain ⟨h0, h6⟩ := htp tl rfl
    simp [CoordinateTransform.from_tag_data, checkTiePoints_of_valid tl h0 h6,
      checkTransformationMatrix_of_len m hm, checkPixelScale]
  · simp [CoordinateTransform.from_tag_data, checkPixelScale_of_len pl (hps pl rfl),
      checkTransformationMatrix_of_len m hm, checkTiePoints]
  · obtain ⟨h0, h6⟩ := htp tl rfl
    simp [CoordinateTransform.from_tag_data, checkPixelScale_of_len pl (hps pl rfl),
      checkTiePoints_of_valid tl h0 h6, checkTransformationMatrix_of_len m hm]

/-- C1 witness at a concrete input. -/
theorem C1_matrix_mutual_exclusion_witness :
    CoordinateTransform.from_tag_data false (some [1, 1, 1]) none
      (some (List.replicate 16 0)) =
      .error (.formatError pixelScaleConflictMsg) := by
  have h := C1_matrix_mutual_exclusion false (some [1, 1, 1]) none
    (List.replicate 16 0) (by simp)
    (by intro l hl; cases hl; rfl)
    (by intro l hl; cases hl)
    (by simp)
  simpa using h

/-- C2: pixel scale of length ≠ 3, tie points of length 0 or not divisible by
6, and a transformation matrix of length ≠ 16 each force
`CoordinateTransform::from_tag_data` to return a FormatError. -/
theorem C2_length_validation (b : Bool) :
    (∀ tp m pl, pl.length ≠ 3 →
      CoordinateTransform.from_tag_data b (some pl) tp m =
        .error (.formatError pixelScaleLenMsg)) ∧
    (∀ ps m tl, tl.length = 0 ∨ tl.length % 6 ≠ 0 →
      isFormatErr (CoordinateTransform.from_tag_data b ps (some tl) m)) ∧
    (∀ ps tp ml, ml.length ≠ 16 →
      isFormatErr (CoordinateTransform.from_tag_data b ps tp (some ml))) := by
  refine ⟨?_, ?_, ?_⟩
  · intro tp m pl h
    simp [CoordinateTransform.from_tag_data, checkPixelScale_of_ne pl h]
  · intro ps m tl h
    have htl : checkTiePoints (some tl) = .error (.formatError tiePointsEmptyMsg) ∨
        checkTiePoints (some tl) = .error (.formatError tiePointsDivMsg) := by
      rcases h with h | h
      · exact .inl (checkTiePoints_of_zero tl h)
      · exact .inr (checkTiePoints_of_mod tl h)
    rw [isFormatErr_iff_not_ok]
    intro t
    rcases ps with _ | pl
    · rcases htl with h' | h' <;>
        simp [CoordinateTransform.from_tag_data, h', checkPixelScale]
    · by_cases hpl : pl.length = 3
      · rcases htl with h' | h' <;>
          simp [CoordinateTransform.from_tag_data, h', checkPixelScale_of_len pl hpl]
      · simp [CoordinateTransform.from_tag_data, checkPixelScale_of_ne pl hpl]
  · intro ps tp ml h
    have hml := checkTransformationMatrix_of_ne ml h
    rw [isFormatErr_iff_not_ok]
    intro t
    rcases ps with _ | pl
    · rcases tp with _ | tl
      · simp [CoordinateTransform.from_tag_data, hml, checkPixelScale, checkTiePoints]
      · by_cases h0 : tl.length = 0
        · simp [CoordinateTransform.from_tag_data, checkPixelScale,
            checkTiePoints_of_zero tl h0]
        · by_cases h6 : tl.length % 6 = 0
          · simp [CoordinateTransform.from_tag_data, checkPixelScale,
              checkTiePoints_of_valid tl h0 h6, hml]
          · simp [CoordinateTransform.from_tag_data, checkPixelScale,
              checkTiePoints_of_mod tl h6]
    · by_cases hpl : pl.length = 3
      · rcases tp with _ | tl
        · simp [CoordinateTransform.from_tag_data, checkPixelScale_of_len pl hpl,
            checkTiePoints, hml]
        · by_cases h0 : tl.length = 0
          · simp [CoordinateTransform.from_tag_data, checkPixelScale_of_len pl hpl,
              checkTiePoints_of_zero tl h0]
          · by_cases h6 : tl.length % 6 = 0
            · simp [CoordinateTransform.from_tag_data, checkPixelScale_of_len pl hpl,
                checkTiePoints_of_valid tl h0 h6, hml]
            · simp [CoordinateTransform.from_tag_data, checkPixelScale_of_len pl hpl,
                checkTiePoints_of_mod tl h6]
      · simp [CoordinateTransform.from_tag_data, checkPixelScale_of_ne pl hpl]

/-- Normal form of `AffineTransform::from_tag_matrix`. -/
theorem from_tag_matrix_eq (m : List ℚ) :
    AffineTransform.from_tag_matrix m =
      if ratAbs (tagMatrixDet m) < invertibilityEpsilon then
        .error (.formatError invertibleMsg)
      else
        .ok { transform := tagMatrixForward m,
              inverse_transform := tagMatrixInverse m } := by
  unfold AffineTransform.from_tag_matrix tagMatrixDet tagMatrixForward tagMatrixInverse
  simp [List.getD_cons_succ, List.getD_cons_zero]

/-- C3: selection logic when the transformation matrix is absent: missing tie
points fail; a single tie point (6 values) without a pixel scale fails; a
single tie point with a 3-value pixel scale selects the
`TiePointAndPixelScale` variant; 12 or more values (a multiple of 6) select
the `TiePoints` variant when the `tie-points` feature is enabled and the
"not supported" error when it is disabled. -/
theorem C3_no_matrix_selection (b : Bool) :
    (∀ ps, isFormatErr (CoordinateTransform.from_tag_data b ps none none)) ∧
    (∀ tl, tl.length = 6 →
      CoordinateTransform.from_tag_data b none (some tl) none =
        .error (.formatError pixelScaleMissingMsg)) ∧
    (∀ tl pl, tl.length = 6 → pl.length = 3 →
      CoordinateTransform.from_tag_data b (some pl) (some tl) none =
        .ok (.tiePointAndPixelScale (TiePointAndPixelScale.from_tag_data tl pl))) ∧
    (∀ tl, 12 ≤ tl.length → tl.length % 6 = 0 →
      CoordinateTransform.from_tag_data true none (some tl) none =
        .ok (.tiePoints (TiePoints.from_tie_points tl)) ∧
      CoordinateTransform.from_tag_data false none (some tl) none =
        .error (.formatError tiePointsNotSupportedMsg)) := by
  refine ⟨?_, ?_, ?_, ?_⟩
  · intro ps
    rw [isFormatErr_iff_not_ok]
    intro t
    rcases ps with _ | pl
    · simp [CoordinateTransform.from_tag_data, checkPixelScale,
        checkTiePoints, checkTransformationMatrix]
    · by_cases hpl : pl.length = 3
      · simp [CoordinateTransform.from_tag_data, checkPixelScale_of_len pl hpl,
          checkTiePoints, checkTransformationMatrix]
      · simp [CoordinateTransform.from_tag_data, checkPixelScale_of_ne pl hpl]
  · intro tl h6
    simp [CoordinateTransform.from_tag_data, checkPixelScale,
      checkTransformationMatrix, checkTiePoints_of_valid tl (by omega) (by omega), h6]
  · intro tl pl h6 h3
    simp [CoordinateTransform.from_tag_data, checkPixelScale_of_len pl h3,
      checkTransformationMatrix, checkTiePoints_of_valid tl (by omega) (by omega), h6]
  · intro tl h12 hmod
    have hne : tl.length ≠ 6 := by omega
    constructor <;>
      simp [CoordinateTransform.from_tag_data, checkPixelScale,
        checkTransformationMatrix, checkTiePoints_of_valid tl (by omega) hmod, hne]

/-- C3 witness at concrete inputs. -/
theorem C3_no_matrix_selection_witness :
    CoordinateTransform.from_tag_data false none (some [0, 0, 0, 5, 6, 0]) none =
      .error (.formatError pixelScaleMissingMsg) ∧
    CoordinateTransform.from_tag_data false (some [1, 2, 3])
      (some [0, 0, 0, 5, 6, 0]) none =
      .ok (.tiePointAndPixelScale
        (TiePointAndPixelScale.from_tag_data [0, 0, 0, 5, 6, 0] [1, 2, 3])) ∧
    CoordinateTransform.from_tag_data true none
      (some (List.replicate 12 0)) none =
      .ok (.tiePoints (TiePoints.from_tie_points (List.replicate 12 0))) ∧
    CoordinateTransform.from_tag_data false none
      (some (List.replicate 12 0)) none =
      .error (.formatError tiePointsNotSupportedMsg) := by
  refine ⟨(C3_no_matrix_selection false).2.1 [0, 0, 0, 5, 6, 0] (by simp),
    (C3_no_matrix_selection false).2.2.1 [0, 0, 0, 5, 6, 0] [1, 2, 3] (by simp) (by simp),
    ((C3_no_matrix_selection false).2.2.2 (List.replicate 12 0) (by simp) (by simp)).1,
    ((C3_no_matrix_selection false).2.2.2 (List.replicate 12 0) (by simp) (by simp)).2⟩

/-- C4: `AffineTransform::from_tag_matrix` fails with the "matrix not
invertible" error exactly when the absolute value of the determinant of the
2×2 linear part (coefficients from row-major positions 0, 1, 3, 4, 5, 7) is
below `1e-15`, and succeeds otherwise. -/
theorem C4_determinant_threshold (m : List ℚ) (hm : m.length = 16) :
    (AffineTransform.from_tag_matrix m = .error (.formatError invertibleMsg) ↔
      |tagMatrixDet m| < invertibilityEpsilon) ∧
    (invertibilityEpsilon ≤ |tagMatrixDet m| →
      ∃ t, AffineTransform.from_tag_matrix m = .ok t) := by
  rw [from_tag_matrix_eq, ratAbs_eq_abs]
  constructor
  · by_cases h : |tagMatrixDet m| < invertibilityEpsilon <;> simp [h]
  · intro hle
    simp [not_lt.mpr hle]

/-- C4 witness: the all-zero matrix fails, the identity matrix succeeds. -/
theorem C4_determinant_threshold_witness :
    AffineTransform.from_tag_matrix (List.replicate 16 0) =
      .error (.formatError invertibleMsg) ∧
    ∃ t, AffineTransform.from_tag_matrix
      [1, 0, 0, 0, 0, 1, 0, 0, 0, 0, 1, 0, 0, 0, 0, 1] = .ok t := by
  constructor
  · exact (C4_determinant_threshold (List.replicate 16 0) (by simp)).1.mpr
      (by norm_num [tagMatrixDet, invertibilityEpsilon, List.getD])
  · exact (C4_determinant_threshold
        [1, 0, 0, 0, 0, 1, 0, 0, 0, 0, 1, 0, 0, 0, 0, 1] (by simp)).2
      (by norm_num [tagMatrixDet, invertibilityEpsilon,
        List.getD_cons_succ, List.getD_cons_zero])

/-- C5: any transform accepted by `AffineTransform::from_tag_matrix` satisfies
the exact round trip `to_raster (to_model p) = p` (floats read as rationals),
because the inverse coefficients computed at construction are the algebraic
inverse of the forward map. -/
theorem C5_affine_round_trip (m : List ℚ) (t : AffineTransform)
    (h : AffineTransform.from_tag_matrix m = .ok t) (p : Coord) :
    t.to_raster (t.to_model p) = p := by
  rw [from_tag_matrix_eq] at h
  by_cases hlt : ratAbs (tagMatrixDet m) < invertibilityEpsilon
  · simp [hlt] at h
  · simp [hlt] at h
    have hdet : tagMatrixDet m ≠ 0 := by
      intro h0
      apply hlt
      rw [h0]
      norm_num [ratAbs, invertibilityEpsilon]
    unfold tagMatrixDet at hdet
    simp only [List.getD, List.get?_eq_getElem?] at hdet
    cases p with
    | mk px py =>
      simp only [← h, AffineTransform.to_model, AffineTransform.to_raster,
        AffineTransform.applyMatrix, tagMatrixForward, tagMatrixInverse,
        List.getD_cons_succ, List.getD_cons_zero, Coord.mk.injEq]
      constructor <;> field_simp <;> ring

/-- C5 witness at the identity matrix and a concrete point. -/
theorem C5_affine_round_trip_witness :
    ∃ t, AffineTransform.from_tag_matrix
        [1, 0, 0, 0, 0, 1, 0, 0, 0, 0, 1, 0, 0, 0, 0, 1] = .ok t ∧
      t.to_raster (t.to_model { x := 3, y := 7 }) = { x := 3, y := 7 } := by
  have h : AffineTransform.from_tag_matrix
      [1, 0, 0, 0, 0, 1, 0, 0, 0, 0, 1, 0, 0, 0, 0, 1] =
      .ok { transform := [1, 0, 0, 0, 1, 0], inverse_transform := [1, 0, 0, 0, 1, 0] } := by
    rw [from_tag_matrix_eq]
    norm_num [tagMatrixDet, tagMatrixForward, tagMatrixInverse, ratAbs,
      invertibilityEpsilon, List.getD_cons_succ, List.getD_cons_zero]
  exact ⟨_, h, C5_affine_round_trip _ _ h _⟩

/-- C6: `TiePointAndPixelScale` built from a 6-value tie point and a 3-value
pixel scale maps `to_model` by scaling relative to the raster anchor (with the
y scale negated), and when both scale components are nonzero the exact round
trip `to_raster (to_model p) = p` holds. -/
theorem C6_tie_point_pixel_scale (tp ps : List ℚ) (htp : tp.length = 6)
    (hps : ps.length = 3) (p : Coord) :
    (TiePointAndPixelScale.from_tag_data tp ps).to_model p =
      { x := (p.x - tp.getD 0 0) * ps.getD 0 0 + tp.getD 3 0,
        y := (p.y - tp.getD 1 0) * -(ps.getD 1 0) + tp.getD 4 0 } ∧
    (ps.getD 0 0 ≠ 0 → ps.getD 1 0 ≠ 0 →
      (TiePointAndPixelScale.from_tag_data tp ps).to_raster
        ((TiePointAndPixelScale.from_tag_data tp ps).to_model p) = p) := by
  constructor
  · rfl
  · intro hx hy
    rcases ps with _ | ⟨s0, ps⟩
    · simp at hps
    rcases ps with _ | ⟨s1, ps⟩
    · simp at hps
    rcases tp with _ | ⟨t0, tp⟩
    · simp at htp
    rcases tp with _ | ⟨t1, tp⟩
    · simp at htp
    rcases tp with _ | ⟨t2, tp⟩
    · simp at htp
    rcases tp with _ | ⟨t3, tp⟩
    · simp at htp
    rcases tp with _ | ⟨t4, tp⟩
    · simp at htp
    simp only [List.getD_cons_zero, List.getD_cons_succ] at hx hy
    cases p with
    | mk px py =>
      simp only [TiePointAndPixelScale.from_tag_data, TiePointAndPixelScale.to_model,
        TiePointAndPixelScale.to_raster, List.getD_cons_zero, List.getD_cons_succ,
        Coord.mk.injEq]
      constructor <;> field_simp

/-- C6 witness at a concrete tie point, pixel scale and point. -/
theorem C6_tie_point_pixel_scale_witness :
    (TiePointAndPixelScale.from_tag_data [0, 0, 0, 5, 6, 0] [2, 3, 0]).to_model
        { x := 1, y := 1 } =
      { x := (1 - 0) * 2 + 5, y := (1 - 0) * -3 + 6 } ∧
    (TiePointAndPixelScale.from_tag_data [0, 0, 0, 5, 6, 0] [2, 3, 0]).to_raster
        ((TiePointAndPixelScale.from_tag_data [0, 0, 0, 5, 6, 0] [2, 3, 0]).to_model
          { x := 1, y := 1 }) = { x := 1, y := 1 } := by
  have h := C6_tie_point_pixel_scale [0, 0, 0, 5, 6, 0] [2, 3, 0]
    (by simp) (by simp) { x := 1, y := 1 }
  refine ⟨?_, h.2 (by norm_num [List.getD]) (by norm_num [List.getD])⟩
  rw [h.1]
  norm_num [List.getD_cons_succ, List.getD_cons_zero]

/-- C2 witness at concrete inputs. -/
theorem C2_length_validation_witness :
    CoordinateTransform.from_tag_data false (some [1, 2]) none none =
      .error (.formatError pixelScaleLenMsg) ∧
    isFormatErr (CoordinateTransform.from_tag_data false none (some [1]) none) ∧
    isFormatErr (CoordinateTransform.from_tag_data false none none (some [1, 2])) := by
  refine ⟨(C2_length_validation false).1 none none [1, 2] (by simp),
    (C2_length_validation false).2.1 none none [1] (.inr (by simp)),
    (C2_length_validation false).2.2 none none [1, 2] (by simp)⟩

theorem Tag.from_u16_isSome (l : Nat) (hl : l ≠ 0) :
    (Tag.from_u16 l).isSome = true := by
  unfold Tag.from_u16
  split_ifs <;> simp_all

theorem Tag.from_u16_zero : Tag.from_u16 0 = none := rfl

/-- C7 (amended): decoding a `ModelType` (short-typed) entry through
`GeoKeyDirectory::from_tag_data` fails with the wrong-value-type error, which
names the key, whenever the location tag is non-zero; fails with the count
error, which reports only the expected and actual counts, whenever the
location tag is zero and the count differs from 1; and returns `valueOrOffset`
directly when the location tag is 0 and the count is 1. -/
theorem short_of_loc_some (t : GeoKeyDirectoryTag) (tg : Tag) (c v : Nat) :
    DirectoryEntry.short ⟨t, some tg, c, v⟩ =
      .error (.formatError (shortTypeErrMsg t)) := by
  simp only [DirectoryEntry.short, Option.isSome_some, if_true]

theorem short_of_count_ne (t : GeoKeyDirectoryTag) (c v : Nat) (hc : c ≠ 1) :
    DirectoryEntry.short ⟨t, none, c, v⟩ =
      .error (.formatError (countErrMsg c)) := by
  simp only [DirectoryEntry.short, Option.isSome_none, Bool.false_eq_true, if_false,
    ne_eq, hc, not_false_eq_true, if_true]

theorem short_of_count_one (t : GeoKeyDirectoryTag) (v : Nat) :
    DirectoryEntry.short ⟨t, none, 1, v⟩ = .ok v := rfl

theorem applyEntry_modeltype (lt : Option Tag) (c v : Nat) (dp : List ℚ)
    (ap : List Char) (d : GeoKeyDirectory) :
    applyEntry ⟨.ModelType, lt, c, v⟩ dp ap d =
      withShort ⟨.ModelType, lt, c, v⟩ (fun w => { d with model_type := some w }) :=
  rfl

theorem withShort_of_err (e : DirectoryEntry) (k : Nat → GeoKeyDirectory)
    (er : TiffError) (h : e.short = .error er) : withShort e k = .err er := by
  simp only [withShort, h]

theorem withShort_of_ok (e : DirectoryEntry) (k : Nat → GeoKeyDirectory)
    (w : Nat) (h : e.short = .ok w) : withShort e k = .ok (k w) := by
  simp only [withShort, h]

theorem decodeEntries_modeltype (dp : List ℚ) (ap : List Char) (l c v : Nat)
    (d : GeoKeyDirectory) :
    decodeEntries dp ap [1024, l, c, v] d =
      withShort ⟨.ModelType, Tag.from_u16 l, c, v⟩
        (fun w => { d with model_type := some w }) := by
  have h1 : decodeEntries dp ap [1024, l, c, v] d =
      match withShort ⟨.ModelType, Tag.from_u16 l, c, v⟩
          (fun w => { d with model_type := some w }) with
      | .ok d' => .ok d'
      | .err er => .err er
      | .panicked => .panicked := rfl
  rw [h1]
  cases withShort ⟨.ModelType, Tag.from_u16 l, c, v⟩
      (fun w => { d with model_type := some w }) <;> rfl

theorem from_tag_data_single (k l c v : Nat) (dp : List ℚ) (ap : List Char) :
    GeoKeyDirectory.from_tag_data [1, 1, 0, 1, k, l, c, v] dp ap =
      decodeEntries dp ap [k, l, c, v]
        { GeoKeyDirectory.default with minor_revision := 0 } := rfl

theorem C7_short_accessor (l c v : Nat) (dp : List ℚ) (ap : List Char) :
    (l ≠ 0 →
      GeoKeyDirectory.from_tag_data [1, 1, 0, 1, 1024, l, c, v] dp ap =
        .err (.formatError (shortTypeErrMsg .ModelType)) ∧
      containsSeg "ModelType".toList (shortTypeErrMsg .ModelType).toList = true) ∧
    (l = 0 → c ≠ 1 →
      GeoKeyDirectory.from_tag_data [1, 1, 0, 1, 1024, l, c, v] dp ap =
        .err (.formatError (countErrMsg c))) ∧
    (l = 0 → c = 1 →
      GeoKeyDirectory.from_tag_data [1, 1, 0, 1, 1024, l, c, v] dp ap =
        .ok { GeoKeyDirectory.default with
              minor_revision := 0, model_type := some v }) := by
  refine ⟨?_, ?_, ?_⟩
  · intro hl
    refine ⟨?_, by decide⟩
    obtain ⟨tg, htg⟩ := Option.isSome_iff_exists.mp (Tag.from_u16_isSome l hl)
    rw [from_tag_data_single, decodeEntries_modeltype, htg,
      withShort_of_err _ _ _ (short_of_loc_some _ tg c v)]
  · intro hl hc
    subst hl
    rw [from_tag_data_single, decodeEntries_modeltype, Tag.from_u16_zero,
      withShort_of_err _ _ _ (short_of_count_ne _ _ _ hc)]
  · intro hl hc
    subst hl
    subst hc
    rw [from_tag_data_single, decodeEntries_modeltype, Tag.from_u16_zero,
      withShort_of_ok _ _ _ (short_of_count_one _ _)]

/-- C7 witness at concrete inputs. -/
theorem C7_short_accessor_witness :
    GeoKeyDirectory.from_tag_data [1, 1, 0, 1, 1024, 34737, 1, 2] [] [] =
      .err (.formatError (shortTypeErrMsg .ModelType)) ∧
    GeoKeyDirectory.from_tag_data [1, 1, 0, 1, 1024, 0, 2, 5] [] [] =
      .err (.formatError (countErrMsg 2)) ∧
    GeoKeyDirectory.from_tag_data [1, 1, 0, 1, 1024, 0, 1, 2] [] [] =
      .ok { GeoKeyDirectory.default with
            minor_revision := 0, model_type := some 2 } := by
  exact ⟨((C7_short_accessor 34737 1 2 [] []).1 (by decide)).1,
    (C7_short_accessor 0 2 5 [] []).2.1 rfl (by decide),
    (C7_short_accessor 0 1 2 [] []).2.2 rfl rfl⟩

/-- C7 counterexample to the claim as stated: with count 2 the decode fails,
but the error message is the count message, which does not contain the key
name `ModelType`. -/
theorem C7_count_error_not_named :
    GeoKeyDirectory.from_tag_data [1, 1, 0, 1, 1024, 0, 2, 5] [] [] =
      .err (.formatError (countErrMsg 2)) ∧
    containsSeg "ModelType".toList (countErrMsg 2).toList = false := by
  decide

/-- C8: `GeoKeyDirectory::from_tag_data` rejects directories shorter than 4
values and directories whose length minus 4 is not 4 times the declared key
count; the well-formed directory `[1,1,0,1, 1024,0,1,2]` decodes (for any
auxiliary arrays) to header 1/1/0 with `model_type = Some(2)` and every other
optional field absent. -/
theorem C8_directory_structure :
    (∀ dd dp ap, dd.length < 4 →
      GeoKeyDirectory.from_tag_data dd dp ap = .err (.formatError dirTooShortMsg)) ∧
    (∀ dd dp ap, 4 ≤ dd.length → dd.length - 4 ≠ 4 * dd.getD 3 0 →
      GeoKeyDirectory.from_tag_data dd dp ap =
        .err (.formatError dirCountMismatchMsg)) ∧
    (∀ dp ap, GeoKeyDirectory.from_tag_data [1, 1, 0, 1, 1024, 0, 1, 2] dp ap =
      .ok { GeoKeyDirectory.default with
            minor_revision := 0, model_type := some 2 }) := by
  refine ⟨?_, ?_, ?_⟩
  · intro dd dp ap h
    simp [GeoKeyDirectory.from_tag_data, h]
  · intro dd dp ap h4 h
    have h' : dd.length - 4 ≠ 4 * dd[3]?.getD 0 := by
      simpa [List.getD, List.get?_eq_getElem?] using h
    simp [GeoKeyDirectory.from_tag_data, Nat.not_lt.mpr h4, h']
  · intro dp ap
    rfl

/-- C8 witness at concrete inputs. -/
theorem C8_directory_structure_witness :
    GeoKeyDirectory.from_tag_data [1] [] [] = .err (.formatError dirTooShortMsg) ∧
    GeoKeyDirectory.from_tag_data [1, 1, 0, 2, 1024, 0, 1, 2] [] [] =
      .err (.formatError dirCountMismatchMsg) ∧
    GeoKeyDirectory.from_tag_data [1, 1, 0, 1, 1024, 0, 1, 2] [] [] =
      .ok { GeoKeyDirectory.default with
            minor_revision := 0, model_type := some 2 } :=
  ⟨C8_directory_structure.1 [1] [] [] (by decide),
   C8_directory_structure.2.1 [1, 1, 0, 2, 1024, 0, 1, 2] [] [] (by decide) (by decide),
   C8_directory_structure.2.2 [] []⟩

/-- C9: a string-typed entry whose location tag names the ascii-params array
and whose bounds checks pass (with `count ≥ 1` and no 16-bit wrap in
`valueOrOffset + count - 1`) decodes to the substring from `valueOrOffset`
inclusive to `valueOrOffset + count - 1` exclusive, dropping the final
covered character. -/
theorem C9_string_accessor (t : GeoKeyDirectoryTag) (c v : Nat)
    (data : List Char) (hc : 1 ≤ c) (hfit : v + c - 1 ≤ 65535)
    (hstart : v < data.length) (hend : v + c - 1 < data.length) :
    DirectoryEntry.string ⟨t, some .GeoAsciiParamsTag, c, v⟩ data =
      .ok ((data.take (v + c - 1)).drop v) := by
  have he : (v + c + 65535) % 65536 = v + c - 1 := by omega
  simp [DirectoryEntry.string, Nat.not_le.mpr hstart, he, Nat.not_le.mpr hend,
    Nat.le_sub_one_of_lt, show v ≤ v + c - 1 by omega]

/-- C9 witness: the `"WGS 84\0"` examples with count 7 and count 1. -/
theorem C9_string_accessor_witness :
    DirectoryEntry.string ⟨.Citation, some .GeoAsciiParamsTag, 7, 0⟩
      "WGS 84\x00".toList = .ok "WGS 84".toList ∧
    DirectoryEntry.string ⟨.Citation, some .GeoAsciiParamsTag, 1, 0⟩
      "WGS 84\x00".toList = .ok "".toList := by
  constructor
  · have h := C9_string_accessor .Citation 7 0 "WGS 84\x00".toList
      (by decide) (by decide) (by decide) (by decide)
    rw [h]
    decide
  · have h := C9_string_accessor .Citation 1 0 "WGS 84\x00".toList
      (by decide) (by decide) (by decide) (by decide)
    rw [h]
    decide

/-- C10: with `count = 0` the end bound `valueOrOffset + count - 1` underflows
in 16-bit arithmetic: for `1 ≤ valueOrOffset < len` the computed end is
`valueOrOffset - 1 < start` and the slice panics instead of returning a
FormatError; for `valueOrOffset = 0` the computation wraps to 65535, which
(for any ascii-params shorter than 65536) trips the end-bound FormatError. -/
theorem C10_count_zero_underflow (t : GeoKeyDirectoryTag) (v : Nat)
    (data : List Char) :
    (1 ≤ v → v ≤ 65535 → v < data.length →
      DirectoryEntry.string ⟨t, some .GeoAsciiParamsTag, 0, v⟩ data = .panicked) ∧
    ((0 + 0 + 65535) % 65536 = 65535 ∧
      (0 < data.length → data.length ≤ 65535 →
        DirectoryEntry.string ⟨t, some .GeoAsciiParamsTag, 0, 0⟩ data =
          .err (.formatError (endOffsetErrMsg data.length 0)))) := by
  refine ⟨?_, by omega, ?_⟩
  · intro h1 h65535 hlen
    have he : (v + 0 + 65535) % 65536 = v - 1 := by omega
    simp [DirectoryEntry.string, Nat.not_le.mpr hlen, he,
      Nat.not_le.mpr (show v - 1 < data.length by omega),
      show ¬v ≤ v - 1 by omega]
  · intro h0 hshort
    have he : (0 + 0 + 65535) % 65536 = 65535 := by omega
    simp [DirectoryEntry.string, Nat.not_le.mpr h0, he, hshort]

/-- C10 witness at concrete inputs. -/
theorem C10_count_zero_underflow_witness :
    DirectoryEntry.string ⟨.Citation, some .GeoAsciiParamsTag, 0, 1⟩
      "abc".toList = .panicked ∧
    DirectoryEntry.string ⟨.Citation, some .GeoAsciiParamsTag, 0, 0⟩
      "abc".toList = .err (.formatError (endOffsetErrMsg 3 0)) := by
  constructor
  · exact (C10_count_zero_underflow .Citation 1 "abc".toList).1
      (by decide) (by decide) (by decide)
  · have h := (C10_count_zero_underflow .Citation 0 "abc".toList).2.2
      (by decide) (by decide)
    simpa using h

end Geotiff
